import Mathlib

/-!
Verification of `data_select_plot` (`enhanced_plots.py`), an interactive
point-annotation tool.  The embedding models the three classes of the source:

  * `DataUnit`      - one item to annotate (name, data, annotation result);
  * `FigureWithBindings` - the per-item annotation session: the mode label,
    the list of categorized points, and the scatter markers on the axes
    (`ax.collections`), together with the click / key event handlers;
  * `Batch`         - the controller: the ordered item list, the cursor
    `current`, the output file, and the advance / receive / persist logic.

The file system is modelled as a map from paths to optional file contents.
Coordinates (`event.xdata` / `event.ydata`) are `Option ℚ`: `none` models a
click outside the image axes (matplotlib reports `None` there).  Event
handlers that can raise in Python (`list.pop` on an empty list, `getattr`
on a missing attribute) return the partial state reached before the raise,
together with an optional error message; the canvas event loop catches
exceptions escaping a handler, so the session object survives them.
-/

namespace DataSelectPlot

/-- A data-space coordinate; `none` is matplotlib's `None` for a click
outside the axes. -/
abbrev Coord := Option ℚ

/-- A categorized point: the 3-tuple `('mode', x-coord, y-coord)`. -/
abbrev CPoint := String × Coord × Coord

/-- One piece of data to process (`DataUnit`).  `δ` is the type of the raw
array, `ρ` the type of the postprocessing result stored into the
annotation field (initially `None`, i.e. `none`). -/
structure DataUnit (δ ρ : Type) where
  name : String
  data : δ
  annotation : Option ρ

/-- Reads the annotation field of a `DataUnit`. -/
def annotationOf {δ ρ : Type} : DataUnit δ ρ → Option ρ
  | ⟨_, _, a⟩ => a

/-- The marker colors, `self._colors` in the source. -/
def _colors : List String := ["b", "g", "r", "c", "m", "y", "k", "w"]

/-- The mode labels, `self._modes = self._colors`. -/
def _modes : List String := _colors

/-- The map from a mode label to its marker color,
`dict(zip(self._modes, self._colors))`. -/
def mode_color_dict : List (String × String) := _modes.zip _colors

/-- The state of one annotation session (`FigureWithBindings`).
`collections` models `self.ax.collections`: the scatter markers drawn so
far, in drawing order, each recorded as (color, x, y). -/
structure FigureWithBindings (δ ρ : Type) where
  post_fun : List CPoint → ρ
  shown_data : δ
  categorized_points : List CPoint
  collections : List CPoint
  mode : String

variable {δ ρ : Type}

/-- The transition `set_mode`: store the given label as the current mode. -/
def set_mode (s : FigureWithBindings δ ρ) (mode : String) : FigureWithBindings δ ρ :=
  { s with mode := mode }

/-- Construction of a session (`FigureWithBindings.__init__`): show the
preprocessed data, start with no points and no markers, then
`set_mode(self._modes[0])`. -/
def FigureWithBindings.init (data : DataUnit δ ρ) (preprocess_fun : δ → δ)
    (postprocess_fun : List CPoint → ρ) : FigureWithBindings δ ρ :=
  set_mode
    { post_fun := postprocess_fun
      shown_data := preprocess_fun data.data
      categorized_points := []
      collections := []
      mode := "" }
    (_modes.getD 0 "")

/-- A key press event: carries `event.key`. -/
structure KeyEvent where
  key : String

/-- A mouse button event: `event.button`, the screen coordinates
`event.x` / `event.y`, and the data coordinates `event.xdata` /
`event.ydata` (absent when the click lies outside the axes). -/
structure MouseEvent where
  button : Nat
  x : ℚ
  y : ℚ
  xdata : Coord
  ydata : Coord

/-- The outcome of dispatching one canvas event to the session: the state
after the handler ran, the error (if the handler raised on the way), and
whether the quit handler was invoked. -/
structure EventResult (δ ρ : Type) where
  state : FigureWithBindings δ ρ
  error : Option String
  quitRequested : Bool

/-- The generated method `mode_apply_<mode>` (`add_mode_apply_method`):
append `(mode, xdata, ydata)` to `categorized_points` and scatter a marker
of the mode's color at the same data coordinates. -/
def mode_apply (mode : String) (s : FigureWithBindings δ ρ) (e : MouseEvent) :
    FigureWithBindings δ ρ :=
  let cat_data : CPoint := (mode, e.xdata, e.ydata)
  { s with
    categorized_points := s.categorized_points ++ [cat_data]
    collections :=
      s.collections ++ [((mode_color_dict.lookup mode).getD "", e.xdata, e.ydata)] }

/-- The message Python raises for `list.pop` on an empty list. -/
def indexErrorMsg : String := "IndexError: pop from empty list"

/-- The handler `remove_last_point`: `self.ax.collections.pop(-1)` followed
by `self.categorized_points.pop(-1)`.  Each pop raises an `IndexError` on
an empty list, leaving the state reached so far. -/
def remove_last_point (s : FigureWithBindings δ ρ) :
    FigureWithBindings δ ρ × Option String :=
  match s.collections with
  | [] => (s, some indexErrorMsg)
  | _ :: _ =>
    let s1 := { s with collections := s.collections.dropLast }
    match s1.categorized_points with
    | [] => (s1, some indexErrorMsg)
    | _ :: _ =>
      ({ s1 with categorized_points := s1.categorized_points.dropLast }, none)

/-- The handler `onclick`: button 1 dispatches to the generated method
`mode_apply_<self.mode>` (an `AttributeError` if no such method exists,
i.e. if the mode is not a label); button 3 calls `remove_last_point`;
other buttons do nothing. -/
def onclick (s : FigureWithBindings δ ρ) (e : MouseEvent) : EventResult δ ρ :=
  if e.button = 1 then
    if s.mode ∈ _modes then ⟨mode_apply s.mode s e, none, false⟩
    else ⟨s, some ("AttributeError: mode_apply_" ++ s.mode), false⟩
  else if e.button = 3 then
    let (s1, err) := remove_last_point s
    ⟨s1, err, false⟩
  else ⟨s, none, false⟩

/-- The handler `onkeypress`: `getattr(self, 'key_pressed_' + event.key)`.
The methods that exist are `key_pressed_<m>` for each mode label `m`
(installed by `add_key_press_method`, they call `set_mode`) and
`key_pressed_q` (which calls `quit`); any other key makes `getattr` raise
an `AttributeError`, with the state untouched. -/
def onkeypress (s : FigureWithBindings δ ρ) (e : KeyEvent) : EventResult δ ρ :=
  if e.key ∈ _modes then ⟨set_mode s e.key, none, false⟩
  else if e.key = "q" then ⟨s, none, true⟩
  else ⟨s, some ("AttributeError: key_pressed_" ++ e.key), false⟩

/-- A file system: maps a path to the content of the file at that path,
`none` when no file exists there. -/
abbrev FS := String → Option String

/-- The check `os.path.isfile(path)`. -/
def isfile (fs : FS) (path : String) : Bool := (fs path).isSome

/-- The message of the `ValueError` raised by `Batch.__init__`.  The source
never calls `.format` on it, so it keeps its literal placeholder. -/
def valueErrorMessage : String :=
  "File \x7b\x7d already exists! Choose another file name, delete the file or append to the existing file by passing the argument `append=True`"

/-- Python list read with Python's index semantics: a non-negative index
counts from the front, a negative one from the back; `none` models the
`IndexError` for an out-of-range index. -/
def pyGet {α : Type} (l : List α) (i : Int) : Option α :=
  if 0 ≤ i then l.get? i.toNat
  else if (-i).toNat ≤ l.length then l.get? (l.length - (-i).toNat)
  else none

/-- Python list element replacement at an index already known to be in
range (the flows below always read the element first via `pyGet`). -/
def pySet {α : Type} (l : List α) (i : Int) (a : α) : List α :=
  if 0 ≤ i then l.set i.toNat a
  else l.set (l.length - (-i).toNat) a

/-- Python's `str` on an optional value: `str(None)` is `"None"`. -/
def pyStr [ToString ρ] : Option ρ → String
  | none => "None"
  | some r => toString r

/-- The controller state (`Batch`).  `_f` is the live figure, if any. -/
structure Batch (δ ρ : Type) where
  preprocess_fun : δ → δ
  postprocess_fun : List CPoint → ρ
  file_to_save_to : String
  data_list : List (DataUnit δ ρ)
  current : Int
  _f : Option (FigureWithBindings δ ρ)

/-- Construction of the controller (`Batch.__init__`): raise a
`ValueError` when `not append and os.path.isfile(file_to_save_to)`,
otherwise start with the cursor at `-1` and no live figure. -/
def Batch.init (data_list : List (DataUnit δ ρ)) (file_to_save_to : String)
    (preprocess_fun : δ → δ) (postprocess_fun : List CPoint → ρ)
    (append : Bool) (fs : FS) : Except String (Batch δ ρ) :=
  if !append && isfile fs file_to_save_to then
    Except.error valueErrorMessage
  else
    Except.ok
      { preprocess_fun := preprocess_fun
        postprocess_fun := postprocess_fun
        file_to_save_to := file_to_save_to
        data_list := data_list
        current := -1
        _f := none }

/-- The operation `gimme_more` (advance): if the cursor already sits at
`len(self.data_list) - 1` only print "No more data man!" (the returned
flag), otherwise increment the cursor and open a new session on
`self.data_list[self.current]`.  The final component models the
`IndexError` Python would raise if the incremented cursor were out of
range (unreachable from a freshly constructed controller). -/
def gimme_more (b : Batch δ ρ) : Batch δ ρ × Bool × Option String :=
  if b.current = (b.data_list.length : Int) - 1 then
    (b, true, none)
  else
    let b1 := { b with current := b.current + 1 }
    match pyGet b1.data_list b1.current with
    | none => (b1, false, some "IndexError: list index out of range")
    | some u =>
      ({ b1 with
          _f := some (FigureWithBindings.init u b.preprocess_fun b.postprocess_fun) },
        false, none)

/-- The operation `save_progress`: open the sink for append and write one
line `name + ": " + str(annotation) + "\n"` for the current item; every
other file is untouched. -/
def save_progress [ToString ρ] (b : Batch δ ρ) (fs : FS) : Except String FS :=
  match pyGet b.data_list b.current with
  | none => Except.error "IndexError: list index out of range"
  | some u =>
    Except.ok (fun p =>
      if p = b.file_to_save_to then
        some ((fs p).getD "" ++ u.name ++ ": " ++ pyStr (annotationOf u) ++ "\n")
      else fs p)

/-- The operation `take_my_data`: store the handed-over result into the
current item's annotation field, then `save_progress`.  It does not touch
the cursor and does not open a session. -/
def take_my_data [ToString ρ] (b : Batch δ ρ) (d : ρ) (fs : FS) :
    Except String (Batch δ ρ × FS) :=
  match pyGet b.data_list b.current with
  | none => Except.error "IndexError: list index out of range"
  | some u =>
    let b1 := { b with data_list := pySet b.data_list b.current { u with annotation := some d } }
    (save_progress b1 fs).map (fun fs1 => (b1, fs1))

/-- The session's quit handler (`key_pressed_q` / `quit`): apply the
postprocessing transform to the categorized points, close the figure,
hand the result to the creator via `take_my_data`, then call
`gimme_more`. -/
def quit [ToString ρ] (b : Batch δ ρ) (s : FigureWithBindings δ ρ) (fs : FS) :
    Except String (Batch δ ρ × FS × Bool) :=
  let my_data := s.post_fun s.categorized_points
  match take_my_data b my_data fs with
  | Except.error e => Except.error e
  | Except.ok (b1, fs1) =>
    match gimme_more b1 with
    | (_, _, some e) => Except.error e
    | (b2, exhausted, none) => Except.ok (b2, fs1, exhausted)

/-- Modelled from the spec: the claim's `receive_result` operation, which
is said to store the result, persist it, and then itself call `advance()`
to start the next session.  Compared below against the source's
`take_my_data`, which stops after persisting. -/
def receive_result_as_claimed [ToString ρ] (b : Batch δ ρ) (d : ρ) (fs : FS) :
    Except String (Batch δ ρ × FS × Bool) :=
  match take_my_data b d fs with
  | Except.error e => Except.error e
  | Except.ok (b1, fs1) =>
    match gimme_more b1 with
    | (_, _, some e) => Except.error e
    | (b2, exhausted, none) => Except.ok (b2, fs1, exhausted)

/-- Iterated `gimme_more`: the controller state after `k` advance calls. -/
def advanceN (b : Batch δ ρ) : Nat → Batch δ ρ
  | 0 => b
  | k + 1 => (gimme_more (advanceN b k)).1

/-- One user action inside a session, as in the spec's stack simulation:
place a point by a primary click at the given data coordinates, or remove
the last point by a secondary click. -/
inductive UserAction where
  | placePoint (xdata ydata : Coord)
  | removeLast

/-- The mouse event a user action produces on the canvas: a primary click
at the given data coordinates, or a secondary click. -/
def eventOf : UserAction → MouseEvent
  | UserAction.placePoint xd yd => { button := 1, x := 0, y := 0, xdata := xd, ydata := yd }
  | UserAction.removeLast => { button := 3, x := 0, y := 0, xdata := none, ydata := none }

/-- Replay of a list of user actions through the session's `onclick`
handler.  The canvas event loop catches an exception escaping a handler
and keeps delivering events, so the replay continues from the state the
handler reached. -/
def replay (s : FigureWithBindings δ ρ) : List UserAction → FigureWithBindings δ ρ
  | [] => s
  | a :: rest => replay (onclick s (eventOf a)).state rest

/-- Modelled from the spec: one step of the spec's stack simulation —
place pushes `(current mode, x, y)` onto the end, remove pops the last
element if the list is non-empty and does nothing otherwise. -/
def stackStep (mode : String) (l : List CPoint) : UserAction → List CPoint
  | UserAction.placePoint xd yd => l ++ [(mode, xd, yd)]
  | UserAction.removeLast => l.dropLast

/-- Modelled from the spec: the spec's stack simulation from the empty
list, with the session's (constant) current mode. -/
def stackSim (mode : String) (acts : List UserAction) : List CPoint :=
  acts.foldl (stackStep mode) []

/-- Does `pat` occur at the start of `l`? -/
def beginsWith {α : Type} [DecidableEq α] : List α → List α → Bool
  | [], _ => true
  | _ :: _, [] => false
  | a :: as, b :: bs => if a = b then beginsWith as bs else false

/-- Does `pat` occur anywhere inside `l`? -/
def occursIn {α : Type} [DecidableEq α] (pat : List α) : List α → Bool
  | [] => pat.isEmpty
  | a :: rest => beginsWith pat (a :: rest) || occursIn pat rest

/-- Substring test on strings. -/
def strContains (s pat : String) : Bool := occursIn pat.toList s.toList

/-- Does the file at `p` exist and hold non-empty content?  (The reading
of "already exists with content" in the constructor claim.) -/
def existsWithContent (fs : FS) (p : String) : Bool :=
  match fs p with
  | some c => !(c == "")
  | none => false

/-! Concrete values used by the witnesses and counterexamples below. -/

/-- A sample item. -/
def exU : DataUnit Unit String := { name := "a", data := (), annotation := none }

/-- A second sample item. -/
def exU2 : DataUnit Unit String := { name := "bb", data := (), annotation := none }

/-- A freshly constructed session on `exU`. -/
def exFig : FigureWithBindings Unit String := FigureWithBindings.init exU id (fun _ => "r")

/-- A right-click (secondary button) event with no data coordinates. -/
def ev3 : MouseEvent := { button := 3, x := 0, y := 0, xdata := none, ydata := none }

/-- A left-click (primary button) event outside the image axes: both data
coordinates absent. -/
def ev1none : MouseEvent := { button := 1, x := 0, y := 0, xdata := none, ydata := none }

/-- An empty file system. -/
def fsNone : FS := fun _ => none

/-- A file system where the sink path "o" exists but holds no content. -/
def fsEmptyFile : FS := fun p => if p = "o" then some "" else none

/-- A file system where a file named "File" exists. -/
def fsFileExists : FS := fun p => if p = "File" then some "x" else none

/-- A file system where every path exists with content. -/
def fsAll : FS := fun _ => some "data"

/-- A controller mid-run: two items, cursor on the first. -/
def bEx : Batch Unit String :=
  { preprocess_fun := id
    postprocess_fun := fun _ => "r"
    file_to_save_to := "out"
    data_list := [exU, exU2]
    current := 0
    _f := none }

/-- A freshly constructed controller on the two items `exU`, `exU2`. -/
def bFresh2 : Batch Unit String :=
  { preprocess_fun := id
    postprocess_fun := fun _ => "r"
    file_to_save_to := "f"
    data_list := [exU, exU2]
    current := -1
    _f := none }

/-- The controller state a successful construction on an empty item list
produces. -/
def bFreshNil : Batch Unit String :=
  { preprocess_fun := id
    postprocess_fun := fun _ => "r"
    file_to_save_to := "f"
    data_list := []
    current := -1
    _f := none }

/-- Claim C1, counterexample: on a fresh session (empty point sequence) the
secondary-click Remove-last-point handler raises — `ax.collections.pop(-1)`
fails on the empty list — contradicting "raises no error". -/
theorem c1_counterexample :
    exFig.categorized_points = [] ∧ (onclick exFig ev3).error = some indexErrorMsg := by
  exact ⟨rfl, by decide⟩

/-- Claim C1 (amended): for every session whose point sequence and marker
list are empty, the Remove-last-point transition (secondary click) leaves
the point sequence empty and the whole state unchanged, but raises an
`IndexError` (the pop on the empty marker list fails before anything is
mutated); it is not a silent no-op. -/
theorem c1_remove_empty_raises (s : FigureWithBindings δ ρ) (e : MouseEvent)
    (hp : s.categorized_points = []) (hc : s.collections = []) (hb : e.button = 3) :
    (onclick s e).state = s ∧ (onclick s e).error = some indexErrorMsg := by
  simp [onclick, hb, remove_last_point, hc]

/-- Claim C1, witness: the amended statement at the fresh session `exFig`
and the right-click event `ev3`. -/
theorem c1_remove_empty_raises_w :
    (onclick exFig ev3).state = exFig ∧ (onclick exFig ev3).error = some indexErrorMsg :=
  c1_remove_empty_raises exFig ev3 rfl rfl rfl

/-- Claim C2, counterexample: dispatching the key "z" (outside the label
set, not the finish key) to a session raises — `getattr` finds no
`key_pressed_z` method — contradicting "does not raise". -/
theorem c2_counterexample :
    (onkeypress exFig { key := "z" }).error
        = some ("AttributeError: key_pressed_" ++ "z") := by
  decide

/-- Claim C2 (amended): for every key-press event whose key is outside the
label set and is not the finish key "q", dispatching the event leaves the
session state unchanged and requests no quit, but raises an
`AttributeError` (there is no `key_pressed_<key>` method); the raise
happens before any mutation, so the session state survives intact. -/
theorem c2_unknown_key_raises (s : FigureWithBindings δ ρ) (e : KeyEvent)
    (h1 : e.key ∉ _modes) (h2 : e.key ≠ "q") :
    (onkeypress s e).state = s
  ∧ (onkeypress s e).error = some ("AttributeError: key_pressed_" ++ e.key)
  ∧ (onkeypress s e).quitRequested = false := by
  simp [onkeypress, h1, h2]

/-- Claim C2, witness: the amended statement at the fresh session `exFig`
and the unrecognized key "z". -/
theorem c2_unknown_key_raises_w :
    (onkeypress exFig { key := "z" }).state = exFig
  ∧ (onkeypress exFig { key := "z" }).error = some ("AttributeError: key_pressed_" ++ "z")
  ∧ (onkeypress exFig { key := "z" }).quitRequested = false :=
  c2_unknown_key_raises exFig { key := "z" } (by decide) (by decide)

/-- Claim C8: for every session state and every label in the label set, the
Select-mode transition sets the current mode to that label, leaves the
point sequence and the marker list unchanged element-for-element, and is
idempotent. -/
theorem c8_select_mode (s : FigureWithBindings δ ρ) (L : String) (hL : L ∈ _modes) :
    (set_mode s L).mode = L
  ∧ (set_mode s L).categorized_points = s.categorized_points
  ∧ (set_mode s L).collections = s.collections
  ∧ set_mode (set_mode s L) L = set_mode s L :=
  ⟨rfl, rfl, rfl, rfl⟩

/-- Claim C8, witness: Select-mode with the label "g" on the fresh session
`exFig`. -/
theorem c8_select_mode_w :
    (set_mode exFig "g").mode = "g"
  ∧ (set_mode exFig "g").categorized_points = exFig.categorized_points
  ∧ (set_mode exFig "g").collections = exFig.collections
  ∧ set_mode (set_mode exFig "g") "g" = set_mode exFig "g" :=
  c8_select_mode exFig "g" (by decide)

/-- Claim C9: for every primary-button click event on a session whose mode
is a label (the session invariant), Place-point appends exactly one point
`(current mode, xdata, ydata)` to the sequence and raises nothing — also
when the click carries no data-space coordinates, in which case the
appended point is `(mode, none, none)` rather than the click being
rejected. -/
theorem c9_place_point (s : FigureWithBindings δ ρ) (e : MouseEvent)
    (hb : e.button = 1) (hm : s.mode ∈ _modes) :
    (onclick s e).state.categorized_points
        = s.categorized_points ++ [(s.mode, e.xdata, e.ydata)]
  ∧ (onclick s e).error = none := by
  simp [onclick, hb, hm, mode_apply]

/-- Claim C9, witness: a primary click outside the axes (both data
coordinates absent) on the fresh session appends exactly the point
`("b", none, none)`. -/
theorem c9_place_point_w :
    (onclick exFig ev1none).state.categorized_points
        = [(("b" : String), (none : Coord), (none : Coord))]
  ∧ (onclick exFig ev1none).error = none :=
  c9_place_point exFig ev1none rfl (by decide)

/-- One event step of the replay agrees with one step of the spec's stack
simulation on the point sequence, keeps the markers and points in
lockstep, and leaves the mode unchanged. -/
theorem click_step (s : FigureWithBindings δ ρ) (hm : s.mode ∈ _modes)
    (hl : s.collections.length = s.categorized_points.length) (a : UserAction) :
    (onclick s (eventOf a)).state.categorized_points
        = stackStep s.mode s.categorized_points a
  ∧ (onclick s (eventOf a)).state.collections.length
        = (onclick s (eventOf a)).state.categorized_points.length
  ∧ (onclick s (eventOf a)).state.mode = s.mode := by
  cases a with
  | placePoint xd yd =>
    refine ⟨?_, ?_, ?_⟩ <;> simp [onclick, eventOf, hm, mode_apply, stackStep, hl]
  | removeLast =>
    rcases hcol : s.collections with _ | ⟨c, cs⟩
    · have hpts : s.categorized_points = [] := by
        rw [hcol] at hl
        exact (List.length_eq_zero.mp hl.symm)
      refine ⟨?_, ?_, ?_⟩ <;>
        simp [onclick, eventOf, remove_last_point, hcol, hpts, stackStep]
    · rcases hpts : s.categorized_points with _ | ⟨p, ps⟩
      · rw [hcol, hpts] at hl
        simp at hl
      · refine ⟨?_, ?_, ?_⟩ <;>
          simp [onclick, eventOf, remove_last_point, hcol, hpts, stackStep]
        rw [hcol, hpts] at hl
        simp at hl
        simp [hl]

/-- Replaying any action list from a session whose mode is a label and
whose markers and points are in lockstep yields exactly the spec's stack
simulation continued from the session's current point sequence. -/
theorem replay_steps (acts : List UserAction) :
    ∀ s : FigureWithBindings δ ρ, s.mode ∈ _modes →
    s.collections.length = s.categorized_points.length →
    (replay s acts).categorized_points
        = acts.foldl (stackStep s.mode) s.categorized_points
  ∧ (replay s acts).collections.length = (replay s acts).categorized_points.length
  ∧ (replay s acts).mode = s.mode := by
  induction acts with
  | nil => exact fun s _ hl => ⟨rfl, hl, rfl⟩
  | cons a rest ih =>
    intro s hm hl
    obtain ⟨h1, h2, h3⟩ := click_step s hm hl a
    have hm1 : (onclick s (eventOf a)).state.mode ∈ _modes := by rw [h3]; exact hm
    obtain ⟨ih1, ih2, ih3⟩ := ih (onclick s (eventOf a)).state hm1 h2
    refine ⟨?_, ?_, ?_⟩
    · show (replay (onclick s (eventOf a)).state rest).categorized_points = _
      rw [ih1, List.foldl_cons, h3, h1]
    · exact ih2
    · show (replay (onclick s (eventOf a)).state rest).mode = s.mode
      rw [ih3, h3]

/-- Claim C5: for every sequence of Place-point and Remove-last-point
actions applied to a fresh session, the resulting point sequence equals
the spec's stack simulation from the empty list with the session's
(initial, and only) mode "b": Place pushes `(mode, x, y)` onto the end,
Remove pops the last element if the list is non-empty and does nothing
otherwise.  (A Remove on the empty sequence makes the handler raise, but
the raise happens before any mutation of the point list and the canvas
event loop survives it, so the point sequence is exactly the stack.) -/
theorem c5_replay_is_stack (u : DataUnit δ ρ) (pre : δ → δ)
    (post : List CPoint → ρ) (acts : List UserAction) :
    (replay (FigureWithBindings.init u pre post) acts).categorized_points
        = stackSim "b" acts := by
  have hmode : (FigureWithBindings.init u pre post).mode = "b" := rfl
  have h := (replay_steps acts (FigureWithBindings.init u pre post)
    (by rw [hmode]; decide) rfl).1
  rw [h, hmode]
  rfl

/-- Claim C3, counterexample: with `append = false` and a sink that exists
but holds no content, the constructor still raises, although the claim
ties the raise to the sink "already existing with content". -/
theorem c3_counterexample :
    Batch.init ([] : List (DataUnit Unit String)) "o" id (fun _ => "r") false fsEmptyFile
        = Except.error valueErrorMessage
  ∧ existsWithContent fsEmptyFile "o" = false := by
  exact ⟨rfl, rfl⟩

/-- Claim C3 (amended): the constructor raises its `ValueError` if and
only if the append flag is false and the sink path exists as a file —
whether or not that file holds any content; when it raises no controller
state exists (so no session was started and the cursor never moved), and
when it succeeds the cursor is at `-1`, no session is live, and the item
list is held unchanged. -/
theorem c3_ctor_guard (dl : List (DataUnit δ ρ)) (file : String) (pre : δ → δ)
    (post : List CPoint → ρ) (append : Bool) (fs : FS) :
    (Batch.init dl file pre post append fs = Except.error valueErrorMessage
        ↔ (append = false ∧ isfile fs file = true))
  ∧ ∀ b, Batch.init dl file pre post append fs = Except.ok b →
      b.current = -1 ∧ b._f = none ∧ b.data_list = dl := by
  cases happ : append <;> cases hfile : isfile fs file <;>
    constructor <;>
      simp [Batch.init, hfile]

/-- Claim C3, witness: on an empty file system the construction succeeds
with the cursor at `-1` and no live session. -/
theorem c3_ctor_guard_w :
    bFreshNil.current = -1 ∧ bFreshNil._f = none ∧ bFreshNil.data_list = [] :=
  (c3_ctor_guard [] "f" id (fun _ => "r") false fsNone).2 bFreshNil rfl

/-- Claim C10, counterexample: for the sink path "File" (an existing
file), construction fails and the fixed error message does contain the
sink path — the claim's "does not contain the sink path" fails for a path
that happens to be a substring of the fixed text. -/
theorem c10_counterexample :
    Batch.init ([] : List (DataUnit Unit String)) "File" id (fun _ => "r") false fsFileExists
        = Except.error valueErrorMessage
  ∧ strContains valueErrorMessage "File" = true := by
  exact ⟨rfl, by decide⟩

/-- Claim C10 (amended): whenever construction fails, the raised message
is one fixed string, independent of the sink path, and it contains the
literal placeholder text "\x7b\x7d" — the format placeholder is never
filled in, so the path is never interpolated into the message (it can
only appear when it coincides with a substring of the fixed text). -/
theorem c10_message_constant (dl : List (DataUnit δ ρ)) (path : String) (pre : δ → δ)
    (post : List CPoint → ρ) (append : Bool) (fs : FS) (msg : String)
    (h : Batch.init dl path pre post append fs = Except.error msg) :
    msg = valueErrorMessage ∧ strContains msg "\x7b\x7d" = true := by
  have hmsg : msg = valueErrorMessage := by
    unfold Batch.init at h
    split at h
    · exact (Except.error.inj h).symm
    · exact absurd h (by simp)
  subst hmsg
  exact ⟨rfl, by decide⟩

/-- Claim C10, witness: the amended statement at the sink path "p" on a
file system where every path exists. -/
theorem c10_message_constant_w :
    valueErrorMessage = valueErrorMessage
  ∧ strContains valueErrorMessage "\x7b\x7d" = true :=
  c10_message_constant ([] : List (DataUnit Unit String)) "p" id (fun _ => "r") false
    fsAll valueErrorMessage rfl

/-- Reading a Python list at a non-negative index is `List.get?`. -/
theorem pyGet_nonneg {α : Type} (l : List α) (i : Int) (h : 0 ≤ i) :
    pyGet l i = l.get? i.toNat := by
  simp [pyGet, h]

/-- A successful read at a non-negative index bounds the index. -/
theorem pyGet_some_lt {α : Type} {l : List α} {i : Int} {u : α} (h0 : 0 ≤ i)
    (h : pyGet l i = some u) : i.toNat < l.length := by
  rw [pyGet_nonneg l i h0] at h
  exact (List.get?_eq_some.mp h).1

/-- Writing then reading the same in-range non-negative index returns the
written element. -/
theorem pyGet_pySet_self {α : Type} (l : List α) (i : Int) (a : α) (h0 : 0 ≤ i)
    (hlt : i.toNat < l.length) : pyGet (pySet l i a) i = some a := by
  simp [pyGet, pySet, h0]
  rw [List.getElem?_set_eq_of_lt a hlt]

/-- Replacing an element never changes the list's length. -/
theorem length_pySet {α : Type} (l : List α) (i : Int) (a : α) :
    (pySet l i a).length = l.length := by
  simp [pySet]
  split <;> simp

/-- An in-range non-negative index can be read. -/
theorem exists_pyGet_some {α : Type} (l : List α) (i : Int) (h0 : 0 ≤ i)
    (hlt : i.toNat < l.length) : ∃ u, pyGet l i = some u := by
  rw [pyGet_nonneg l i h0]
  rcases hq : l.get? i.toNat with _ | u
  · exact absurd (List.get?_eq_none.mp hq) (by omega)
  · exact ⟨u, rfl⟩

/-- Advancing with the cursor on the last item only reports exhaustion. -/
theorem gimme_more_last (b : Batch δ ρ)
    (h : b.current = (b.data_list.length : Int) - 1) :
    gimme_more b = (b, true, none) := by
  simp [gimme_more, h]

/-- Advancing with the cursor anywhere else increments the cursor by one
and opens a session on the item now under the cursor. -/
theorem gimme_more_step (b : Batch δ ρ) (u : DataUnit δ ρ)
    (hne : b.current ≠ (b.data_list.length : Int) - 1)
    (hu : pyGet b.data_list (b.current + 1) = some u) :
    gimme_more b
      = ({ b with
            current := b.current + 1
            _f := some (FigureWithBindings.init u b.preprocess_fun b.postprocess_fun) },
          false, none) := by
  unfold gimme_more
  rw [if_neg hne]
  simp [hu]

/-- Advancing from a valid cursor position never raises. -/
theorem gimme_more_no_error (b : Batch δ ρ) (h0 : 0 ≤ b.current)
    (hlt : b.current.toNat < b.data_list.length) :
    (gimme_more b).2.2 = none := by
  by_cases hc : b.current = (b.data_list.length : Int) - 1
  · rw [gimme_more_last b hc]
  · obtain ⟨u, hu⟩ := exists_pyGet_some b.data_list (b.current + 1) (by omega) (by omega)
    rw [gimme_more_step b u hc hu]

/-- Full description of a successful hand-over: the current item's
annotation field is replaced by the result and the sink receives exactly
one appended line. -/
theorem take_my_data_spec [ToString ρ] (b : Batch δ ρ) (d : ρ) (fs : FS)
    (u : DataUnit δ ρ) (h0 : 0 ≤ b.current)
    (hu : pyGet b.data_list b.current = some u) :
    take_my_data b d fs
      = Except.ok
          ({ b with data_list := pySet b.data_list b.current { u with annotation := some d } },
            fun p => if p = b.file_to_save_to
              then some ((fs p).getD "" ++ u.name ++ ": " ++ toString d ++ "\n")
              else fs p) := by
  have hlt : b.current.toNat < b.data_list.length := pyGet_some_lt h0 hu
  have hset : pyGet (pySet b.data_list b.current { u with annotation := some d })
      b.current = some { u with annotation := some d } :=
    pyGet_pySet_self _ _ _ h0 hlt
  simp only [take_my_data, hu, save_progress]
  rw [hset]
  cases u
  simp [pyStr, annotationOf, Except.map]

/-- Claim C7: for every completed item (a controller whose cursor points
at an in-range item `u`), the hand-over operation appends to the sink
exactly the text `u.name ++ ": " ++ toString d ++ "\n"` — one line whose
body is the textual rendering of the result — leaving the pre-existing
sink content as an unrewritten prefix and every other file untouched. -/
theorem c7_persist_appends_line [ToString ρ] (b : Batch δ ρ) (d : ρ) (fs : FS)
    (u : DataUnit δ ρ) (h0 : 0 ≤ b.current)
    (hu : pyGet b.data_list b.current = some u) :
    ∃ b1 fs1, take_my_data b d fs = Except.ok (b1, fs1)
      ∧ fs1 b.file_to_save_to
          = some ((fs b.file_to_save_to).getD "" ++ u.name ++ ": " ++ toString d ++ "\n")
      ∧ ∀ p, p ≠ b.file_to_save_to → fs1 p = fs p := by
  refine ⟨_, _, take_my_data_spec b d fs u h0 hu, ?_, ?_⟩
  · simp
  · intro p hp
    simp [hp]

/-- Claim C7, witness: handing over the result "res" for the first of two
items appends exactly the line `a: res` to the empty sink "out". -/
theorem c7_persist_appends_line_w :
    ∃ b1 fs1, take_my_data bEx "res" fsNone = Except.ok (b1, fs1)
      ∧ fs1 bEx.file_to_save_to
          = some ((fsNone bEx.file_to_save_to).getD "" ++ exU.name ++ ": "
              ++ toString "res" ++ "\n")
      ∧ ∀ p, p ≠ bEx.file_to_save_to → fs1 p = fsNone p :=
  c7_persist_appends_line bEx "res" fsNone exU (by decide) rfl

/-- Claim C6, counterexample: the receive operation `take_my_data` on a
two-item controller with the cursor on the first item leaves the cursor at
0 and opens no session, whereas the claimed store-persist-advance
operation would move the cursor to 1 and open a session — so
`take_my_data` itself does not call `advance()`. -/
theorem c6_counterexample :
    (take_my_data bEx "res" fsNone).map (fun p => p.1.current) = Except.ok 0
  ∧ (take_my_data bEx "res" fsNone).map (fun p => (p.1)._f.isSome) = Except.ok false
  ∧ (receive_result_as_claimed bEx "res" fsNone).map (fun t => t.1.current) = Except.ok 1
  ∧ (receive_result_as_claimed bEx "res" fsNone).map (fun t => (t.1)._f.isSome)
        = Except.ok true := by
  exact ⟨rfl, rfl, rfl, rfl⟩

/-- Claim C6 (amended): the completion flow as a whole does store, persist
and then advance — but the advance is issued by the session's quit
handler after `take_my_data` returns, not by `take_my_data` itself: for
every controller whose cursor points at an in-range item `u`, quitting a
session stores the postprocessed points into that item's annotation
field, persists them as one appended sink line, and then the flow applies
`gimme_more` to the stored state. -/
theorem c6_completion_flow [ToString ρ] (b : Batch δ ρ)
    (s : FigureWithBindings δ ρ) (fs : FS) (u : DataUnit δ ρ)
    (h0 : 0 ≤ b.current) (hu : pyGet b.data_list b.current = some u) :
    ∃ b1 fs1, take_my_data b (s.post_fun s.categorized_points) fs = Except.ok (b1, fs1)
      ∧ (pyGet b1.data_list b1.current).map annotationOf
          = some (some (s.post_fun s.categorized_points))
      ∧ fs1 b.file_to_save_to
          = some ((fs b.file_to_save_to).getD "" ++ u.name ++ ": "
              ++ toString (s.post_fun s.categorized_points) ++ "\n")
      ∧ quit b s fs = Except.ok ((gimme_more b1).1, fs1, (gimme_more b1).2.1) := by
  have hlt : b.current.toNat < b.data_list.length := pyGet_some_lt h0 hu
  have htm := take_my_data_spec b (s.post_fun s.categorized_points) fs u h0 hu
  refine ⟨_, _, htm, ?_, ?_, ?_⟩
  · have hset : pyGet
        (pySet b.data_list b.current
          { u with annotation := some (s.post_fun s.categorized_points) })
        b.current = some { u with annotation := some (s.post_fun s.categorized_points) } :=
      pyGet_pySet_self _ _ _ h0 hlt
    show (pyGet (pySet b.data_list b.current _) b.current).map annotationOf = _
    rw [hset]
    cases u
    simp [annotationOf]
  · simp
  · have hno : (gimme_more { b with
        data_list := pySet b.data_list b.current
          { u with annotation := some (s.post_fun s.categorized_points) } }).2.2 = none := by
      apply gimme_more_no_error
      · exact h0
      · show b.current.toNat < (pySet b.data_list b.current _).length
        rw [length_pySet]
        exact hlt
    unfold quit
    simp only [htm]
    rcases hg : gimme_more { b with
        data_list := pySet b.data_list b.current
          { u with annotation := some (s.post_fun s.categorized_points) } }
      with ⟨b2, ex, err⟩
    rw [hg] at hno
    simp only at hno
    subst hno
    simp [hg]

/-- Claim C6, witness: the amended completion flow at the two-item
controller `bEx` with the fresh session `exFig` and an empty file
system. -/
theorem c6_completion_flow_w :
    ∃ b1 fs1, take_my_data bEx (exFig.post_fun exFig.categorized_points) fsNone
        = Except.ok (b1, fs1)
      ∧ (pyGet b1.data_list b1.current).map annotationOf
          = some (some (exFig.post_fun exFig.categorized_points))
      ∧ fs1 bEx.file_to_save_to
          = some ((fsNone bEx.file_to_save_to).getD "" ++ exU.name ++ ": "
              ++ toString (exFig.post_fun exFig.categorized_points) ++ "\n")
      ∧ quit bEx exFig fsNone
          = Except.ok ((gimme_more b1).1, fs1, (gimme_more b1).2.1) :=
  c6_completion_flow bEx exFig fsNone exU (by decide) rfl

/-- Closed form of the controller after `k` advance calls from a freshly
constructed state: the cursor is at `k - 1`, everything else is untouched,
and the live session (if any) shows the item under the cursor. -/
theorem advanceN_closed (pre : δ → δ) (post : List CPoint → ρ) (file : String)
    (dl : List (DataUnit δ ρ)) (f : Option (FigureWithBindings δ ρ)) :
    ∀ k, k ≤ dl.length →
      advanceN ⟨pre, post, file, dl, -1, f⟩ k
        = ⟨pre, post, file, dl, (k : Int) - 1,
            if k = 0 then f
            else (dl.get? (k - 1)).map (fun u => FigureWithBindings.init u pre post)⟩ := by
  intro k
  induction k with
  | zero => intro _; simp [advanceN]
  | succ k ih =>
    intro hk1
    have hk : k ≤ dl.length := Nat.le_of_succ_le hk1
    have hklt : k < dl.length := hk1
    obtain ⟨u, hu⟩ := exists_pyGet_some dl (k : Int) (by omega) (by simpa using hklt)
    show (gimme_more (advanceN ⟨pre, post, file, dl, -1, f⟩ k)).1 = _
    rw [ih hk]
    have hu' : pyGet dl ((k : Int) - 1 + 1) = some u := by
      rw [(by omega : ((k : Int) - 1 + 1) = (k : Int))]
      exact hu
    rw [gimme_more_step _ u (by intro hcontra; simp at hcontra; omega) hu']
    have hget : dl.get? k = some u := by
      have h2 := hu
      rw [pyGet_nonneg dl (k : Int) (by omega)] at h2
      simpa using h2
    have hget2 : dl[k]? = some u := by
      rw [← List.get?_eq_getElem?]
      exact hget
    simp [Batch.mk.injEq, hget2]

/-- Claim C4: from a freshly constructed controller on a non-empty item
list, the cursor starts at `-1`; each of the first `len` advance calls
increments the cursor by exactly one (so it never decreases and never
exceeds `len - 1`) and opens a session on the `k`-th item in original
order, visiting every item exactly once; and once the cursor sits on the
last item every further advance call changes nothing, reports exhaustion,
and creates no session. -/
theorem c4_advance_in_order (dl : List (DataUnit δ ρ)) (file : String) (pre : δ → δ)
    (post : List CPoint → ρ) (append : Bool) (fs : FS) (b : Batch δ ρ)
    (hok : Batch.init dl file pre post append fs = Except.ok b) (hne : dl ≠ []) :
    b.current = -1
  ∧ (∀ k, k < dl.length →
        gimme_more (advanceN b k) = (advanceN b (k + 1), false, none)
      ∧ (advanceN b (k + 1)).current = (k : Int)
      ∧ (advanceN b (k + 1))._f
          = (dl.get? k).map (fun u => FigureWithBindings.init u pre post))
  ∧ (∀ m, dl.length ≤ m → advanceN b m = advanceN b dl.length)
  ∧ gimme_more (advanceN b dl.length) = (advanceN b dl.length, true, none) := by
  have hb : b = ⟨pre, post, file, dl, -1, none⟩ := by
    unfold Batch.init at hok
    split at hok
    · exact absurd hok (by simp)
    · exact (Except.ok.inj hok).symm
  subst hb
  have hC := advanceN_closed pre post file dl none
  have hlast : gimme_more (advanceN ⟨pre, post, file, dl, -1, none⟩ dl.length)
      = (advanceN ⟨pre, post, file, dl, -1, none⟩ dl.length, true, none) := by
    rw [hC dl.length (le_refl _)]
    exact gimme_more_last _ rfl
  refine ⟨rfl, ?_, ?_, ?_⟩
  · intro k hk
    obtain ⟨u, hu⟩ := exists_pyGet_some dl (k : Int) (by omega) (by simpa using hk)
    have hu' : pyGet dl ((k : Int) - 1 + 1) = some u := by
      rw [(by omega : ((k : Int) - 1 + 1) = (k : Int))]
      exact hu
    have hstep : gimme_more (advanceN ⟨pre, post, file, dl, -1, none⟩ k)
        = (⟨pre, post, file, dl, (k : Int) - 1 + 1,
            some (FigureWithBindings.init u pre post)⟩, false, none) := by
      rw [hC k (Nat.le_of_lt hk)]
      exact gimme_more_step _ u (by intro hcontra; simp at hcontra; omega) hu'
    have hadv : advanceN ⟨pre, post, file, dl, -1, none⟩ (k + 1)
        = ⟨pre, post, file, dl, (k : Int) - 1 + 1,
            some (FigureWithBindings.init u pre post)⟩ := by
      show (gimme_more (advanceN ⟨pre, post, file, dl, -1, none⟩ k)).1 = _
      rw [hstep]
    have hget : dl.get? k = some u := by
      have h2 := hu
      rw [pyGet_nonneg dl (k : Int) (by omega)] at h2
      simpa using h2
    refine ⟨?_, ?_, ?_⟩
    · rw [hstep, hadv]
    · rw [hadv]
      show ((k : Int) - 1 + 1) = (k : Int)
      omega
    · rw [hadv, hget]
      rfl
  · intro m hm
    have key : ∀ j, advanceN ⟨pre, post, file, dl, -1, none⟩ (dl.length + j)
        = advanceN ⟨pre, post, file, dl, -1, none⟩ dl.length := by
      intro j
      induction j with
      | zero => rfl
      | succ j ihj =>
        show (gimme_more (advanceN ⟨pre, post, file, dl, -1, none⟩ (dl.length + j))).1 = _
        rw [ihj, hlast]
    have := key (m - dl.length)
    rwa [Nat.add_sub_cancel' hm] at this
  · exact hlast

/-- Claim C4, witness: on a fresh two-item controller the cursor starts at
`-1`, lands on `0` after the first advance, and the third advance is an
exhausted no-op. -/
theorem c4_advance_in_order_w :
    bFresh2.current = -1
  ∧ (advanceN bFresh2 1).current = ((0 : Nat) : Int)
  ∧ gimme_more (advanceN bFresh2 2) = (advanceN bFresh2 2, true, none) := by
  obtain ⟨h1, h2, _h3, h4⟩ :=
    c4_advance_in_order [exU, exU2] "f" id (fun _ => "r") true fsNone bFresh2 rfl
      (List.cons_ne_nil _ _)
  exact ⟨h1, (h2 0 (by decide)).2.1, h4⟩

end DataSelectPlot
